import Mathlib

/-!
Verification development for the may-pasok-ba class-suspension pipeline:
feature engineering, risk classification, and prediction validation.
Python floats are modelled as rationals; Python `None` as `Option.none`;
JSON dictionaries as association lists.
-/

namespace MayPasokBa

/-! ## Risk tier classifier (src/src/weather/risk_tiers.py) -/

/-- Risk tier levels for class suspension predictions (`class RiskTier`). -/
inductive RiskTier where
  | GREEN
  | ORANGE
  | RED
deriving DecidableEq, Repr

/-- `TIER_THRESHOLDS["green_max"]` -/
def green_max : ℚ := 40/100

/-- `TIER_THRESHOLDS["orange_max"]` -/
def orange_max : ℚ := 55/100

/-- `get_risk_tier`: determine risk tier from model probability. -/
def get_risk_tier (probability : ℚ) : RiskTier :=
  if probability < green_max then .GREEN
  else if probability < orange_max then .ORANGE
  else .RED

/-- Ordinal severity of a tier, GREEN < ORANGE < RED. -/
def RiskTier.severity : RiskTier → ℕ
  | .GREEN => 0
  | .ORANGE => 1
  | .RED => 2

/-! ## Typhoon-context gate (src/backfill/engineer_features.py lines 260-265) -/

/-- `effective_tcws = raw_tcws if metro_manila_affected else 0` -/
def effective_tcws (raw_tcws : ℕ) (metro_manila_affected : Bool) : ℕ :=
  if metro_manila_affected then raw_tcws else 0

/-! ## Confusion-matrix metrics (src/backfill/analyze_performance.py, `calculate_metrics`) -/

/-- The four confusion-matrix counts produced by `analyze_predictions`. -/
structure AnalysisCounts where
  tp : ℕ
  fp : ℕ
  fn : ℕ
  tn : ℕ
deriving DecidableEq, Repr

/-- `total = tp_count + fp_count + fn_count + tn_count` -/
def totalCount (c : AnalysisCounts) : ℕ := c.tp + c.fp + c.fn + c.tn

/-- `accuracy = (tp_count + tn_count) / total if total > 0 else 0` -/
def accuracy (c : AnalysisCounts) : ℚ :=
  if 0 < totalCount c then ((c.tp : ℚ) + c.tn) / (totalCount c) else 0

/-- `precision = tp_count / (tp_count + fp_count) if (tp_count + fp_count) > 0 else 0` -/
def precision (c : AnalysisCounts) : ℚ :=
  if 0 < c.tp + c.fp then (c.tp : ℚ) / ((c.tp : ℚ) + c.fp) else 0

/-- `recall = tp_count / (tp_count + fn_count) if (tp_count + fn_count) > 0 else 0` -/
def recallScore (c : AnalysisCounts) : ℚ :=
  if 0 < c.tp + c.fn then (c.tp : ℚ) / ((c.tp : ℚ) + c.fn) else 0

/-- `f1 = 2 * (precision * recall) / (precision + recall) if (precision + recall) > 0 else 0` -/
def f1_score (c : AnalysisCounts) : ℚ :=
  if 0 < precision c + recallScore c then
    2 * (precision c * recallScore c) / (precision c + recallScore c)
  else 0

/-- `f2 = (1 + beta**2) * (precision * recall) / (beta**2 * precision + recall)
    if (precision + recall) > 0 else 0`, with `beta = 2`. -/
def f2_score (c : AnalysisCounts) : ℚ :=
  if 0 < precision c + recallScore c then
    (1 + 2 ^ 2) * (precision c * recallScore c) / (2 ^ 2 * precision c + recallScore c)
  else 0

/-- `specificity = tn_count / (tn_count + fp_count) if (tn_count + fp_count) > 0 else 0` -/
def specificity (c : AnalysisCounts) : ℚ :=
  if 0 < c.tn + c.fp then (c.tn : ℚ) / ((c.tn : ℚ) + c.fp) else 0

/-! ## Prediction record (src/backfill/generate_predictions.py lines 129-166) -/

/-- `THRESHOLD = 0.5` -/
def THRESHOLD : ℚ := 1/2

/-- Core of the prediction record built per feature vector (weather/PAGASA
display context elided: not needed for the decision logic). -/
structure PredictionRec where
  suspension_probability : ℚ
  predicted_suspended : Bool
  risk_tier : RiskTier
  threshold_used : ℚ
deriving DecidableEq, Repr

/-- `predicted_suspended = bool(proba >= THRESHOLD)`; the risk tier comes from
`interpret_prediction`, which calls `get_risk_tier(probability)`. -/
def mk_prediction (proba : ℚ) : PredictionRec :=
  { suspension_probability := proba
    predicted_suspended := decide (THRESHOLD ≤ proba)
    risk_tier := get_risk_tier proba
    threshold_used := THRESHOLD }

/-! ## Matching and counting
(src/backfill/generate_prediction_logs.py, `calculate_performance_metrics`) -/

/-- A prediction joined with its actual outcome; `actual_suspended = none`
models Python `None` (no ground-truth record for this (date, lgu)). -/
structure PredWithActual where
  predicted_suspended : Bool
  actual_suspended : Option Bool
deriving DecidableEq, Repr

/-- The counting loop of `calculate_performance_metrics`: predictions whose
`actual_suspended` is `None` are skipped; the rest are bucketed into the
confusion matrix and counted in `total_predictions`. Returns
(tp, fp, tn, fn, total_predictions). Per-LGU and per-tier accumulators of the
original are elided: they do not affect these five counters. -/
def countConfusion : List PredWithActual → ℕ × ℕ × ℕ × ℕ × ℕ
  | [] => (0, 0, 0, 0, 0)
  | pred :: rest =>
    let (tp, fp, tn, fn, totalPreds) := countConfusion rest
    match pred.actual_suspended with
    | none => (tp, fp, tn, fn, totalPreds)
    | some actual =>
      if pred.predicted_suspended && actual then (tp + 1, fp, tn, fn, totalPreds + 1)
      else if pred.predicted_suspended && !actual then (tp, fp + 1, tn, fn, totalPreds + 1)
      else if !pred.predicted_suspended && !actual then (tp, fp, tn + 1, fn, totalPreds + 1)
      else (tp, fp, tn, fn + 1, totalPreds + 1)

/-! ## Matching and counting (src/backfill/analyze_performance.py) -/

/-- One day of the actual-suspensions input:
`{date, suspension_details: {lgu: {suspended: bool}}}`. -/
structure ActualDay where
  date : String
  suspension_details : List (String × Bool)
deriving DecidableEq, Repr

/-- `create_actual_suspension_set`: the set of (date, lgu) pairs whose
`suspended` flag is true (modelled as a list used for membership). -/
def create_actual_suspension_set (suspensions : List ActualDay) : List (String × String) :=
  suspensions.flatMap fun day =>
    (day.suspension_details.filter fun p => p.2).map fun p => (day.date, p.1)

/-- A prediction record as read by `analyze_predictions`. -/
structure AnalysisPred where
  prediction_date : String
  lgu : String
  predicted_suspended : Bool
  suspension_probability : ℚ
deriving DecidableEq, Repr

/-- The classification loop of `analyze_predictions`:
`actually_suspended = (date, lgu) in actual_suspensions`, then every
prediction is bucketed into TP/FP/FN/TN (the per-date breakdown and the
per-bucket record lists of the original are elided: only list lengths are
used by `calculate_metrics`). -/
def analyze_predictions (predictions : List AnalysisPred)
    (actual_suspensions : List (String × String)) : AnalysisCounts :=
  predictions.foldr
    (fun pred c =>
      let actually_suspended := actual_suspensions.contains (pred.prediction_date, pred.lgu)
      if pred.predicted_suspended && actually_suspended then { c with tp := c.tp + 1 }
      else if pred.predicted_suspended && !actually_suspended then { c with fp := c.fp + 1 }
      else if !pred.predicted_suspended && actually_suspended then { c with fn := c.fn + 1 }
      else { c with tn := c.tn + 1 })
    ⟨0, 0, 0, 0⟩

/-- Whether the actual-suspensions input carries any record (suspended or not)
for a given (date, lgu): the claim's notion of "known actual outcome". -/
def has_known_actual (suspensions : List ActualDay) (date lgu : String) : Bool :=
  suspensions.any fun day =>
    day.date == date && day.suspension_details.any fun p => p.1 == lgu

/-- Number of predictions whose (date, unit) pair has a known actual outcome. -/
def known_actual_count (predictions : List AnalysisPred)
    (suspensions : List ActualDay) : ℕ :=
  (predictions.filter fun p => has_known_actual suspensions p.prediction_date p.lgu).length

/-! ## Name normalizer (src/backfill/generate_prediction_logs.py, `normalize_lgu_name`)

The Python string primitives `str.strip`, `str.lower` and `str.title` are
modelled over the characters this pipeline manipulates: ASCII plus the
accented and mojibake characters occurring in the LGU names. Characters
outside this alphabet are treated as caseless. -/

/-- Whitespace removed by `str.strip` (ASCII whitespace). -/
def pySpace (c : Char) : Bool :=
  c == ' ' || c == '\t' || c == '\n' || c == '\r' || c == '\x0b' || c == '\x0c'

/-- (uppercase, lowercase) pairs of the modelled alphabet. -/
def caseTable : List (Char × Char) :=
  [('A', 'a'), ('B', 'b'), ('C', 'c'), ('D', 'd'), ('E', 'e'), ('F', 'f'),
   ('G', 'g'), ('H', 'h'), ('I', 'i'), ('J', 'j'), ('K', 'k'), ('L', 'l'),
   ('M', 'm'), ('N', 'n'), ('O', 'o'), ('P', 'p'), ('Q', 'q'), ('R', 'r'),
   ('S', 's'), ('T', 't'), ('U', 'u'), ('V', 'v'), ('W', 'w'), ('X', 'x'),
   ('Y', 'y'), ('Z', 'z'), ('Ñ', 'ñ'), ('Ã', 'ã')]

/-- Lowercase a character (`str.lower`, per character). -/
def charLower (c : Char) : Char :=
  ((caseTable.find? fun p => p.1 == c).map Prod.snd).getD c

/-- Uppercase a character (`str.upper`, per character). -/
def charUpper (c : Char) : Char :=
  ((caseTable.find? fun p => p.2 == c).map Prod.fst).getD c

/-- Whether a character is cased. -/
def charCased (c : Char) : Bool :=
  caseTable.any fun p => p.1 == c || p.2 == c

/-- `str.title`: a cased character is uppercased when the previous character
is not cased and lowercased otherwise; uncased characters pass through. -/
def titleAux : Bool → List Char → List Char
  | _, [] => []
  | prevCased, c :: rest =>
    let c2 := if charCased c then (if prevCased then charLower c else charUpper c) else c
    c2 :: titleAux (charCased c) rest

/-- `str.lower` on strings. -/
def pyLower (s : String) : String := ⟨s.data.map charLower⟩

/-- `str.title` on strings. -/
def pyTitle (s : String) : String := ⟨titleAux false s.data⟩

/-- `str.strip`: drop leading and trailing whitespace. -/
def stripChars (l : List Char) : List Char :=
  ((l.dropWhile pySpace).reverse.dropWhile pySpace).reverse

/-- `str.strip` on strings. -/
def pyStrip (s : String) : String := ⟨stripChars s.data⟩

/-- The `mapping` dict inside `normalize_lgu_name`. -/
def lguMapping : List (String × String) :=
  [("las pinas", "Las Piñas"),
   ("las piñas", "Las Piñas"),
   ("las piã±as", "Las Piñas"),
   ("paranaque", "Parañaque"),
   ("parañaque", "Parañaque"),
   ("paraã±aque", "Parañaque"),
   ("quezon city", "Quezon City"),
   ("san juan", "San Juan")]

/-- `normalize_lgu_name`: strip, look the lowercased form up in the variant
mapping, and fall back to title-casing. -/
def normalize_lgu_name (lgu : String) : String :=
  let normalized := pyStrip lgu
  let lower := pyLower normalized
  match lguMapping.find? fun p => p.1 == lower with
  | some p => p.2
  | none => pyTitle normalized

/-! ## LGU identifier mapping (src/backfill/engineer_features.py lines 37-50) -/

/-- Python string `<`: code-point lexicographic order. -/
def strLtChars : List Char → List Char → Bool
  | [], [] => false
  | [], _ :: _ => true
  | _ :: _, [] => false
  | a :: as, b :: bs =>
    if a.toNat < b.toNat then true
    else if b.toNat < a.toNat then false
    else strLtChars as bs

/-- Python string `<=`. -/
def pyStrLe (s t : String) : Bool := !strLtChars t.data s.data

/-- Insertion sort implementing Python `sorted` on strings (the input names
are pairwise distinct, so stability is irrelevant). -/
def insertSorted (s : String) : List String → List String
  | [] => [s]
  | t :: rest => if pyStrLe s t then s :: t :: rest else t :: insertSorted s rest

/-- Python `sorted`. -/
def pySorted (l : List String) : List String := l.foldr insertSorted []

/-- `METRO_MANILA_LGUS = sorted([...])`. -/
def METRO_MANILA_LGUS : List String :=
  pySorted
    ["Manila", "Quezon City", "Caloocan", "Las Piñas", "Makati",
     "Malabon", "Mandaluyong", "Marikina", "Muntinlupa", "Navotas",
     "Parañaque", "Pasay", "Pasig", "Pateros", "San Juan",
     "Taguig", "Valenzuela"]

/-- `LGU_ID_MAP = {lgu: idx for idx, lgu in enumerate(METRO_MANILA_LGUS)}`. -/
def lguBaseMap : List (String × ℕ) :=
  METRO_MANILA_LGUS.enum.map fun p => (p.2, p.1)

/-- `LGU_ID_MAP` after the two mojibake aliases are added
(`LGU_ID_MAP['Las PiÃ±as'] = LGU_ID_MAP['Las Piñas']`, likewise Parañaque). -/
def LGU_ID_MAP : List (String × ℕ) :=
  lguBaseMap ++
    [("Las PiÃ±as", (List.lookup "Las Piñas" lguBaseMap).getD 0),
     ("ParaÃ±aque", (List.lookup "Parañaque" lguBaseMap).getD 0)]

/-! ## Feature engineering (src/backfill/engineer_features.py)

Dates are modelled with their calendar components (as `datetime` exposes
them), the keying ISO string, and a linear day index standing for the date
itself so that `date - timedelta(days=i)` is `index - i`. A weather JSON
record field is `Option (Option ℚ)`: the outer level is key presence
(`dict.get` substitutes the default only when the key is absent), the inner
level is JSON null. -/

/-- A calendar date as consumed by `calculate_temporal_features` and the
lookback arithmetic. -/
structure Datum where
  year : ℤ
  month : ℤ
  day : ℤ
  weekday : ℤ
  iso : String
  index : ℤ
deriving DecidableEq, Repr

/-- A raw forecast/archive record's numeric payload. -/
structure WeatherRec where
  precipitation_sum : Option (Option ℚ)
  precipitation_hours : Option (Option ℚ)
  wind_speed_10m_max : Option (Option ℚ)
  wind_gusts_10m_max : Option (Option ℚ)
  pressure_msl_min : Option (Option ℚ)
  temperature_2m_max : Option (Option ℚ)
  relative_humidity_2m_mean : Option (Option ℚ)
  cloud_cover_max : Option (Option ℚ)
  dew_point_2m_mean : Option (Option ℚ)
  apparent_temperature_max : Option (Option ℚ)
  weather_code : Option (Option ℚ)
  cape_max : Option (Option ℚ)
deriving DecidableEq, Repr

/-- `record.get(key, default)`: the default replaces an absent key only; a
present null value passes through as `None`. -/
def pyGet (field : Option (Option ℚ)) (default : ℚ) : Option ℚ :=
  field.getD (some default)

/-- `value or default` on the result of a `get`: Python replaces falsy values,
i.e. `None` and `0.0`, by the default. -/
def pyOr (value : Option ℚ) (default : ℚ) : ℚ :=
  match value with
  | none => default
  | some v => if v = 0 then default else v

/-- `HOLIDAYS` (empty in the source). -/
def HOLIDAYS : List String := []

/-- `calculate_temporal_features`, in dict insertion order. -/
def calculate_temporal_features (dt : Datum) : List (String × Option ℚ) :=
  [("year", some (dt.year : ℚ)),
   ("month", some (dt.month : ℚ)),
   ("day", some (dt.day : ℚ)),
   ("day_of_week", some (dt.weekday : ℚ)),
   ("is_rainy_season", some (if dt.month ∈ [6, 7, 8, 9, 10, 11] then 1 else 0)),
   ("month_from_sy_start", some (((dt.month - 6) % 12 : ℤ) : ℚ)),
   ("is_holiday", some (if dt.iso ∈ HOLIDAYS then 1 else 0)),
   ("is_school_day", some (if dt.weekday < 5 ∧ dt.iso ∉ HOLIDAYS then 1 else 0))]

/-- The weather archive `forecast_by_lgu_date`, keyed by (lgu, date). -/
def Archive : Type := List ((String × ℤ) × WeatherRec)

/-- The 13 outputs of `calculate_historical_features`. The ten t-1 point
values are `Option ℚ` because a present-but-null archive value passes
through `dict.get` unguarded; the three aggregates are always numbers. -/
structure HistFeatures where
  hist_precipitation_sum_t1 : Option ℚ
  hist_wind_speed_max_t1 : Option ℚ
  hist_wind_gusts_max_t1 : Option ℚ
  hist_pressure_msl_min_t1 : Option ℚ
  hist_temperature_max_t1 : Option ℚ
  hist_relative_humidity_mean_t1 : Option ℚ
  hist_cloud_cover_max_t1 : Option ℚ
  hist_dew_point_mean_t1 : Option ℚ
  hist_apparent_temperature_max_t1 : Option ℚ
  hist_weather_code_t1 : Option ℚ
  hist_precip_sum_3d : ℚ
  hist_precip_sum_7d : ℚ
  hist_wind_max_7d : ℚ
deriving DecidableEq, Repr

/-- `range(1, 8)`: the loop over 1..7 days back. -/
def lookbackDays : List ℤ := [1, 2, 3, 4, 5, 6, 7]

/-- The rolling-window loop of `calculate_historical_features`: for each `i`
days back, a day with an archive entry appends its (defaulted) precipitation
to the 3-day list (when `i <= 3`) and the 7-day list and its wind speed to
the wind list; a day with no entry appends nothing. -/
def rollingAux (lgu : String) (day : ℤ) (archive : Archive) :
    List ℤ → List ℚ × List ℚ × List ℚ
  | [] => ([], [], [])
  | i :: rest =>
    let (p3, p7, w7) := rollingAux lgu day archive rest
    match List.lookup (lgu, day - i) archive with
    | some past_data =>
      let precip := pyOr (pyGet past_data.precipitation_sum 0) 0
      let wind := pyOr (pyGet past_data.wind_speed_10m_max 0) 0
      (if i ≤ 3 then precip :: p3 else p3, precip :: p7, wind :: w7)
    | none => (p3, p7, w7)

/-- `calculate_historical_features`: t-1 point values (typed defaults when no
archive entry exists at date-1) plus the three rolling aggregates
(`sum(...) if ... else 0.0`, `max(...) if ... else 0.0`). -/
def calculate_historical_features (lgu : String) (day : ℤ) (archive : Archive) :
    HistFeatures :=
  let (p3, p7, w7) := rollingAux lgu day archive lookbackDays
  let agg3 : ℚ := if p3.isEmpty then 0 else p3.sum
  let agg7 : ℚ := if p7.isEmpty then 0 else p7.sum
  let aggW : ℚ := match w7 with | [] => 0 | x :: xs => xs.foldl max x
  match List.lookup (lgu, day - 1) archive with
  | some t1_data =>
    { hist_precipitation_sum_t1 := pyGet t1_data.precipitation_sum 0
      hist_wind_speed_max_t1 := pyGet t1_data.wind_speed_10m_max 0
      hist_wind_gusts_max_t1 := pyGet t1_data.wind_gusts_10m_max 0
      hist_pressure_msl_min_t1 := pyGet t1_data.pressure_msl_min 1010
      hist_temperature_max_t1 := pyGet t1_data.temperature_2m_max 30
      hist_relative_humidity_mean_t1 := pyGet t1_data.relative_humidity_2m_mean 70
      hist_cloud_cover_max_t1 := pyGet t1_data.cloud_cover_max 50
      hist_dew_point_mean_t1 := pyGet t1_data.dew_point_2m_mean 24
      hist_apparent_temperature_max_t1 := pyGet t1_data.apparent_temperature_max 30
      hist_weather_code_t1 := pyGet t1_data.weather_code 0
      hist_precip_sum_3d := agg3
      hist_precip_sum_7d := agg7
      hist_wind_max_7d := aggW }
  | none =>
    { hist_precipitation_sum_t1 := some 0
      hist_wind_speed_max_t1 := some 0
      hist_wind_gusts_max_t1 := some 0
      hist_pressure_msl_min_t1 := some 1010
      hist_temperature_max_t1 := some 30
      hist_relative_humidity_mean_t1 := some 70
      hist_cloud_cover_max_t1 := some 50
      hist_dew_point_mean_t1 := some 24
      hist_apparent_temperature_max_t1 := some 30
      hist_weather_code_t1 := some 0
      hist_precip_sum_3d := agg3
      hist_precip_sum_7d := agg7
      hist_wind_max_7d := aggW }

/-- The historical features as dict entries, in insertion order
(`{**hist_t1, **hist_aggregates}`). -/
def histFeatureList (h : HistFeatures) : List (String × Option ℚ) :=
  [("hist_precipitation_sum_t1", h.hist_precipitation_sum_t1),
   ("hist_wind_speed_max_t1", h.hist_wind_speed_max_t1),
   ("hist_wind_gusts_max_t1", h.hist_wind_gusts_max_t1),
   ("hist_pressure_msl_min_t1", h.hist_pressure_msl_min_t1),
   ("hist_temperature_max_t1", h.hist_temperature_max_t1),
   ("hist_relative_humidity_mean_t1", h.hist_relative_humidity_mean_t1),
   ("hist_cloud_cover_max_t1", h.hist_cloud_cover_max_t1),
   ("hist_dew_point_mean_t1", h.hist_dew_point_mean_t1),
   ("hist_apparent_temperature_max_t1", h.hist_apparent_temperature_max_t1),
   ("hist_weather_code_t1", h.hist_weather_code_t1),
   ("hist_precip_sum_3d", some h.hist_precip_sum_3d),
   ("hist_precip_sum_7d", some h.hist_precip_sum_7d),
   ("hist_wind_max_7d", some h.hist_wind_max_7d)]

/-- `calculate_forecast_features`: every field is `record.get(key, d) or d`,
so a missing key and a null (or 0.0) value both yield the typed default. -/
def calculate_forecast_features (forecast_record : WeatherRec) : List (String × Option ℚ) :=
  [("fcst_precipitation_sum", some (pyOr (pyGet forecast_record.precipitation_sum 0) 0)),
   ("fcst_precipitation_hours", some (pyOr (pyGet forecast_record.precipitation_hours 0) 0)),
   ("fcst_wind_speed_max", some (pyOr (pyGet forecast_record.wind_speed_10m_max 0) 0)),
   ("fcst_wind_gusts_max", some (pyOr (pyGet forecast_record.wind_gusts_10m_max 0) 0)),
   ("fcst_pressure_msl_min", some (pyOr (pyGet forecast_record.pressure_msl_min 1010) 1010)),
   ("fcst_temperature_max", some (pyOr (pyGet forecast_record.temperature_2m_max 30) 30)),
   ("fcst_relative_humidity_mean",
    some (pyOr (pyGet forecast_record.relative_humidity_2m_mean 70) 70)),
   ("fcst_cloud_cover_max", some (pyOr (pyGet forecast_record.cloud_cover_max 50) 50)),
   ("fcst_dew_point_mean", some (pyOr (pyGet forecast_record.dew_point_2m_mean 24) 24)),
   ("fcst_cape_max", some (pyOr (pyGet forecast_record.cape_max 0) 0))]

/-- The per-record feature-dict construction inside `engineer_features`
(lines 242-258): temporal features, `lgu_id` (a `LGU_ID_MAP[lgu]` lookup that
raises `KeyError` — modelled as `none` — for unknown names), the constant
flood-risk score 0.5, historical features, forecast features. -/
def build_feature_vector (lgu : String) (dt : Datum) (archive : Archive)
    (forecast_record : WeatherRec) : Option (List (String × Option ℚ)) :=
  match List.lookup lgu LGU_ID_MAP with
  | none => none
  | some lgu_id =>
    some (calculate_temporal_features dt ++
      [("lgu_id", some (lgu_id : ℚ)), ("mean_flood_risk_score", some (1/2))] ++
      histFeatureList (calculate_historical_features lgu dt.index archive) ++
      calculate_forecast_features forecast_record)

/-- `metadata["feature_names"]` aside, the fixed order the features are
inserted into the dict (the metadata list swaps the 7d/3d names; the dict
itself inserts 3d before 7d). -/
def featureOrder : List String :=
  ["year", "month", "day", "day_of_week", "is_rainy_season", "month_from_sy_start",
   "is_holiday", "is_school_day", "lgu_id", "mean_flood_risk_score",
   "hist_precipitation_sum_t1", "hist_wind_speed_max_t1", "hist_wind_gusts_max_t1",
   "hist_pressure_msl_min_t1", "hist_temperature_max_t1", "hist_relative_humidity_mean_t1",
   "hist_cloud_cover_max_t1", "hist_dew_point_mean_t1", "hist_apparent_temperature_max_t1",
   "hist_weather_code_t1", "hist_precip_sum_3d", "hist_precip_sum_7d", "hist_wind_max_7d",
   "fcst_precipitation_sum", "fcst_precipitation_hours", "fcst_wind_speed_max",
   "fcst_wind_gusts_max", "fcst_pressure_msl_min", "fcst_temperature_max",
   "fcst_relative_humidity_mean", "fcst_cloud_cover_max", "fcst_dew_point_mean",
   "fcst_cape_max"]

/-- The validation tail of `engineer_features` (lines 289-300) together with
the process outcome: the check inspects only the first vector's feature
count, prints a warning on a mismatch, and the run writes its output file
and finishes with exit code 0 either way. Returns
(warning_printed, output_written, exit_code). -/
def engineer_features_validation (feature_vectors : List (List (String × Option ℚ))) :
    Bool × Bool × ℕ :=
  match feature_vectors with
  | [] => (false, true, 0)
  | sample :: _ => (decide (sample.length ≠ 33), true, 0)

/-- Spec-side reformulation of the rolling windows: the days among 1..7 back
that actually have an archive entry. -/
def availableLookbackDays (lgu : String) (day : ℤ) (archive : Archive) : List ℤ :=
  lookbackDays.filter fun i => (List.lookup (lgu, day - i) archive).isSome

/-- The ten t-1-path fields of an archive record carry no JSON null (they may
still be absent). -/
def t1FieldsNonNull (r : WeatherRec) : Prop :=
  r.precipitation_sum ≠ some none ∧ r.wind_speed_10m_max ≠ some none ∧
  r.wind_gusts_10m_max ≠ some none ∧ r.pressure_msl_min ≠ some none ∧
  r.temperature_2m_max ≠ some none ∧ r.relative_humidity_2m_mean ≠ some none ∧
  r.cloud_cover_max ≠ some none ∧ r.dew_point_2m_mean ≠ some none ∧
  r.apparent_temperature_max ≠ some none ∧ r.weather_code ≠ some none

/-- A concrete date for witnesses: 2025-09-23 was a Tuesday. -/
def sampleDate : Datum :=
  { year := 2025, month := 9, day := 23, weekday := 1, iso := "2025-09-23", index := 100 }

/-- A concrete forecast record with every key absent. -/
def emptyRec : WeatherRec :=
  { precipitation_sum := none, precipitation_hours := none, wind_speed_10m_max := none,
    wind_gusts_10m_max := none, pressure_msl_min := none, temperature_2m_max := none,
    relative_humidity_2m_mean := none, cloud_cover_max := none, dew_point_2m_mean := none,
    apparent_temperature_max := none, weather_code := none, cape_max := none }

/-- A concrete archive record whose precipitation key is present but null. -/
def nullPrecipRec : WeatherRec :=
  { emptyRec with precipitation_sum := some none }

/-- The feature vector built for Manila on `sampleDate` with an empty archive
and an all-absent forecast record. -/
def sampleVector : List (String × Option ℚ) :=
  (build_feature_vector "Manila" sampleDate [] emptyRec).getD []

/-- An archive holding only a present-but-null precipitation reading for
Manila the day before `sampleDate`. -/
def nullArchive : Archive := [(("Manila", sampleDate.index - 1), nullPrecipRec)]

/-- The feature vector built for Manila over `nullArchive`. -/
def nullArchiveVector : List (String × Option ℚ) :=
  (build_feature_vector "Manila" sampleDate nullArchive emptyRec).getD []

/-! ## Theorems -/

/-- Helper: below 0.40 the tier is GREEN. -/
theorem riskTier_green_of {p : ℚ} (h : p < 40/100) : get_risk_tier p = .GREEN := by
  have hg : p < green_max := by rw [green_max]; linarith
  simp [get_risk_tier, hg]

/-- Helper: in [0.40, 0.55) the tier is ORANGE. -/
theorem riskTier_orange_of {p : ℚ} (h1 : 40/100 ≤ p) (h2 : p < 55/100) :
    get_risk_tier p = .ORANGE := by
  have hg : ¬p < green_max := by rw [green_max]; linarith
  have ho : p < orange_max := by rw [orange_max]; linarith
  simp [get_risk_tier, hg, ho]

/-- Helper: at or above 0.55 the tier is RED. -/
theorem riskTier_red_of {p : ℚ} (h : 55/100 ≤ p) : get_risk_tier p = .RED := by
  have hg : ¬p < green_max := by rw [green_max]; linarith
  have ho : ¬p < orange_max := by rw [orange_max]; linarith
  simp [get_risk_tier, hg, ho]

/-- C1: for every probability p in [0, 0.40), `get_risk_tier` returns GREEN;
for p in [0.40, 0.55) it returns ORANGE; for p ≥ 0.55 it returns RED; in
particular the boundary values give `get_risk_tier 0.40 = ORANGE` and
`get_risk_tier 0.55 = RED`. -/
theorem get_risk_tier_tiers (p : ℚ) :
    (0 ≤ p → p < 40/100 → get_risk_tier p = .GREEN) ∧
    (40/100 ≤ p → p < 55/100 → get_risk_tier p = .ORANGE) ∧
    (55/100 ≤ p → get_risk_tier p = .RED) ∧
    get_risk_tier (40/100) = .ORANGE ∧ get_risk_tier (55/100) = .RED :=
  ⟨fun _ h => riskTier_green_of h, riskTier_orange_of, riskTier_red_of,
   riskTier_orange_of (by norm_num) (by norm_num), riskTier_red_of (by norm_num)⟩

/-- Witness for C1 at p = 0, p = 0.45 and p = 0.55. -/
theorem get_risk_tier_tiers_witness :
    get_risk_tier 0 = .GREEN ∧ get_risk_tier (45/100) = .ORANGE ∧
      get_risk_tier (55/100) = .RED :=
  ⟨(get_risk_tier_tiers 0).1 (by norm_num) (by norm_num),
   (get_risk_tier_tiers (45/100)).2.1 (by norm_num) (by norm_num),
   (get_risk_tier_tiers (55/100)).2.2.1 (by norm_num)⟩

/-- C10: `get_risk_tier` is total (every rational probability yields one of
the three tiers) and monotone: p ≤ q implies severity of the tier at p is at
most the severity at q, under GREEN < ORANGE < RED. -/
theorem get_risk_tier_monotone (p q : ℚ) (h : p ≤ q) :
    (get_risk_tier p).severity ≤ (get_risk_tier q).severity ∧
    (get_risk_tier p = .GREEN ∨ get_risk_tier p = .ORANGE ∨ get_risk_tier p = .RED) := by
  constructor
  · simp only [get_risk_tier, green_max, orange_max]
    split_ifs <;> simp [RiskTier.severity] <;> linarith
  · simp only [get_risk_tier]
    split_ifs <;> simp

/-- Witness for C10 at p = 0.1, q = 0.9. -/
theorem get_risk_tier_monotone_witness :
    (get_risk_tier (1/10)).severity ≤ (get_risk_tier (9/10)).severity ∧
    (get_risk_tier (1/10) = .GREEN ∨ get_risk_tier (1/10) = .ORANGE ∨
      get_risk_tier (1/10) = .RED) :=
  get_risk_tier_monotone (1/10) (9/10) (by norm_num)

/-- C7: the effective wind-signal level equals the raw level when the unit is
in the affected area and 0 otherwise; raw 4 with affected = false gives 0,
raw 0 with affected = true gives 0, and the effective level never exceeds the
raw level. -/
theorem effective_tcws_spec (L : ℕ) (a : Bool) :
    effective_tcws L a = (if a then L else 0) ∧
    effective_tcws 4 false = 0 ∧
    effective_tcws 0 true = 0 ∧
    effective_tcws L a ≤ L := by
  refine ⟨rfl, rfl, rfl, ?_⟩
  unfold effective_tcws
  split <;> simp

/-- C4: each derived metric of `calculate_metrics` evaluates to exactly 0
whenever its denominator is 0 (accuracy: total; precision: TP+FP; recall:
TP+FN; F1: precision+recall; F2 with beta = 2: beta²·precision+recall;
specificity: TN+FP). -/
theorem metrics_zero_denominator (c : AnalysisCounts) :
    (totalCount c = 0 → accuracy c = 0) ∧
    (c.tp + c.fp = 0 → precision c = 0) ∧
    (c.tp + c.fn = 0 → recallScore c = 0) ∧
    (precision c + recallScore c = 0 → f1_score c = 0) ∧
    (2 ^ 2 * precision c + recallScore c = 0 → f2_score c = 0) ∧
    (c.tn + c.fp = 0 → specificity c = 0) := by
  have hp : 0 ≤ precision c := by
    unfold precision; split_ifs <;> positivity
  have hr : 0 ≤ recallScore c := by
    unfold recallScore; split_ifs <;> positivity
  refine ⟨fun h => ?_, fun h => ?_, fun h => ?_, fun h => ?_, fun h => ?_, fun h => ?_⟩
  · simp [accuracy, h]
  · simp [precision, h]
  · simp [recallScore, h]
  · simp [f1_score, h]
  · have hpr : precision c = 0 ∧ recallScore c = 0 := by constructor <;> nlinarith
    simp [f2_score, hpr.1, hpr.2]
  · simp [specificity, h]

/-- Witness for C4 at the all-zero counts. -/
theorem metrics_zero_denominator_witness :
    accuracy ⟨0, 0, 0, 0⟩ = 0 ∧ precision ⟨0, 0, 0, 0⟩ = 0 ∧
      recallScore ⟨0, 0, 0, 0⟩ = 0 ∧ f1_score ⟨0, 0, 0, 0⟩ = 0 ∧
      f2_score ⟨0, 0, 0, 0⟩ = 0 ∧ specificity ⟨0, 0, 0, 0⟩ = 0 := by
  obtain ⟨h1, h2, h3, h4, h5, h6⟩ := metrics_zero_denominator ⟨0, 0, 0, 0⟩
  exact ⟨h1 (by decide), h2 (by decide), h3 (by decide),
    h4 (by simp [precision, recallScore]), h5 (by simp [precision, recallScore]),
    h6 (by decide)⟩

/-- C9: `predicted_suspended` and the risk tier are computed independently
from the same probability: the flag is `probability ≥ THRESHOLD` (0.5) while
the tier uses the 0.40/0.55 boundaries; for every p with 0.40 ≤ p < 0.5 the
prediction record is ORANGE with `predicted_suspended = false`, in particular
at p = 0.45. -/
theorem prediction_threshold_independent (p : ℚ) :
    (mk_prediction p).predicted_suspended = decide (THRESHOLD ≤ p) ∧
    (mk_prediction p).risk_tier = get_risk_tier p ∧
    (40/100 ≤ p → p < 1/2 →
      (mk_prediction p).risk_tier = .ORANGE ∧
      (mk_prediction p).predicted_suspended = false) ∧
    (mk_prediction (45/100)).risk_tier = .ORANGE ∧
    (mk_prediction (45/100)).predicted_suspended = false := by
  have hflag : ∀ q : ℚ, q < 1/2 → (mk_prediction q).predicted_suspended = false := by
    intro q hq
    simp only [mk_prediction, THRESHOLD, decide_eq_false_iff_not, not_le]
    exact hq
  refine ⟨rfl, rfl, fun h1 h2 => ⟨?_, hflag p h2⟩, ?_, hflag (45/100) (by norm_num)⟩
  · show get_risk_tier p = .ORANGE
    exact riskTier_orange_of h1 (by linarith)
  · show get_risk_tier (45/100) = .ORANGE
    exact riskTier_orange_of (by norm_num) (by norm_num)

/-- Helper: the four buckets of `countConfusion` sum to the number of
predictions with a known actual outcome, which is also its running
`total_predictions` counter. -/
theorem countConfusion_sum_eq (preds : List PredWithActual) :
    (countConfusion preds).1 + (countConfusion preds).2.1 +
        (countConfusion preds).2.2.1 + (countConfusion preds).2.2.2.1 =
      (preds.filter fun p => p.actual_suspended.isSome).length ∧
    (countConfusion preds).2.2.2.2 =
      (preds.filter fun p => p.actual_suspended.isSome).length := by
  induction preds with
  | nil => simp [countConfusion]
  | cons p rest ih =>
    obtain ⟨ih1, ih2⟩ := ih
    rcases hc : countConfusion rest with ⟨tp, ⟨fp, ⟨tn, ⟨fn, t⟩⟩⟩⟩
    rw [hc] at ih1 ih2
    dsimp only at ih1 ih2
    cases h : p.actual_suspended with
    | none => simp [countConfusion, h, hc, List.filter_cons, ih1, ih2]
    | some a =>
      cases hp : p.predicted_suspended <;> cases a <;>
        simp [countConfusion, h, hp, hc, List.filter_cons, ← ih1, ih2] <;> omega

/-- Helper: `analyze_predictions` buckets every prediction: the four counts
always sum to the full number of predictions, ground truth or not. -/
theorem analyze_predictions_counts_all (apreds : List AnalysisPred)
    (sus : List (String × String)) :
    (analyze_predictions apreds sus).tp + (analyze_predictions apreds sus).fp +
        (analyze_predictions apreds sus).fn + (analyze_predictions apreds sus).tn =
      apreds.length := by
  induction apreds with
  | nil => simp [analyze_predictions]
  | cons p rest ih =>
    simp only [analyze_predictions, List.foldr_cons, List.length_cons] at ih ⊢
    set c := rest.foldr _ (⟨0, 0, 0, 0⟩ : AnalysisCounts) with hcdef
    split_ifs <;> simp <;> omega

/-- C2 (amended): in `calculate_performance_metrics`
(generate_prediction_logs.py) the invariant holds: TP+FP+TN+FN equals the
number of predictions with a known actual outcome, and a prediction whose
actual outcome is `None` leaves all counters unchanged; in
`analyze_predictions` (analyze_performance.py), by contrast, the four counts
sum to the total number of predictions, ground truth known or not. -/
theorem confusion_counts_known_actuals (preds : List PredWithActual)
    (apreds : List AnalysisPred) (sus : List (String × String)) :
    ((countConfusion preds).1 + (countConfusion preds).2.1 +
        (countConfusion preds).2.2.1 + (countConfusion preds).2.2.2.1 =
      (preds.filter fun p => p.actual_suspended.isSome).length) ∧
    (∀ p : PredWithActual, p.actual_suspended = none →
      countConfusion (p :: preds) = countConfusion preds) ∧
    ((analyze_predictions apreds sus).tp + (analyze_predictions apreds sus).fp +
        (analyze_predictions apreds sus).fn + (analyze_predictions apreds sus).tn =
      apreds.length) := by
  refine ⟨(countConfusion_sum_eq preds).1, fun p hp => ?_,
    analyze_predictions_counts_all apreds sus⟩
  rcases hc : countConfusion preds with ⟨tp, ⟨fp, ⟨tn, ⟨fn, t⟩⟩⟩⟩
  simp [countConfusion, hp, hc]

/-- Witness for C2 (amended) on concrete inputs: one unmatched prediction is
skipped by `countConfusion`, while `analyze_predictions` still counts its
single prediction. -/
theorem confusion_counts_known_actuals_witness :
    ((countConfusion [⟨true, none⟩]).1 + (countConfusion [⟨true, none⟩]).2.1 +
        (countConfusion [⟨true, none⟩]).2.2.1 + (countConfusion [⟨true, none⟩]).2.2.2.1 =
      (([⟨true, none⟩] : List PredWithActual).filter
        fun p => p.actual_suspended.isSome).length) ∧
    countConfusion [⟨true, none⟩, ⟨true, none⟩] = countConfusion [⟨true, none⟩] ∧
    ((analyze_predictions [⟨"2025-09-26", "Manila", true, 0⟩] []).tp +
        (analyze_predictions [⟨"2025-09-26", "Manila", true, 0⟩] []).fp +
        (analyze_predictions [⟨"2025-09-26", "Manila", true, 0⟩] []).fn +
        (analyze_predictions [⟨"2025-09-26", "Manila", true, 0⟩] []).tn = 1) := by
  obtain ⟨h1, h2, h3⟩ :=
    confusion_counts_known_actuals [⟨true, none⟩] [⟨"2025-09-26", "Manila", true, 0⟩] []
  exact ⟨h1, h2 ⟨true, none⟩ rfl, h3⟩

/-- C2 (counterexample to the original claim): `analyze_predictions` counts a
prediction with no ground-truth record at all as a true negative: with one
prediction and an empty actual-suspensions input, TP+FP+FN+TN = 1 and TN = 1
although the number of (unit, date) pairs with a known actual outcome is 0. -/
theorem analyze_predictions_counts_unknown_as_tn :
    (analyze_predictions [⟨"2025-09-26", "Manila", false, 0⟩]
        (create_actual_suspension_set []) = ⟨0, 0, 0, 1⟩) ∧
    known_actual_count [⟨"2025-09-26", "Manila", false, 0⟩] [] = 0 := by
  exact ⟨rfl, rfl⟩

/-- Witness for C9 at p = 0.45. -/
theorem prediction_threshold_independent_witness :
    (mk_prediction (45/100)).risk_tier = .ORANGE ∧
    (mk_prediction (45/100)).predicted_suspended = false :=
  (prediction_threshold_independent (45/100)).2.2.1 (by norm_num) (by norm_num)


/-- Facts about the case table, checked by evaluation. -/
theorem caseTable_facts :
    ∀ pr ∈ caseTable,
      charLower pr.1 = pr.2 ∧ charUpper pr.2 = pr.1 ∧
      charUpper pr.1 = pr.1 ∧ charLower pr.2 = pr.2 ∧
      charCased pr.1 = true ∧ charCased pr.2 = true ∧
      pySpace pr.1 = false ∧ pySpace pr.2 = false := by decide

/-- `charUpper` either fixes a character or maps the lowercase member of a
table pair to its uppercase partner. -/
theorem charUpper_eq (c : Char) :
    charUpper c = c ∨ ∃ pr ∈ caseTable, pr.2 = c ∧ charUpper c = pr.1 := by
  unfold charUpper
  cases h : caseTable.find? fun p => p.2 == c with
  | none => left; rfl
  | some pr =>
    right
    have hb := List.find?_some h
    have hb2 : (pr.2 == c) = true := hb
    exact ⟨pr, List.mem_of_find?_eq_some h, eq_of_beq hb2, rfl⟩

/-- `charLower` either fixes a character or maps the uppercase member of a
table pair to its lowercase partner. -/
theorem charLower_eq (c : Char) :
    charLower c = c ∨ ∃ pr ∈ caseTable, pr.1 = c ∧ charLower c = pr.2 := by
  unfold charLower
  cases h : caseTable.find? fun p => p.1 == c with
  | none => left; rfl
  | some pr =>
    right
    have hb := List.find?_some h
    have hb2 : (pr.1 == c) = true := hb
    exact ⟨pr, List.mem_of_find?_eq_some h, eq_of_beq hb2, rfl⟩

theorem charLower_charUpper (c : Char) : charLower (charUpper c) = charLower c := by
  rcases charUpper_eq c with h | ⟨pr, hmem, hc, heq⟩
  · rw [h]
  · obtain ⟨f1, f2, f3, f4, f5, f6, f7, f8⟩ := caseTable_facts pr hmem
    subst hc
    rw [heq, f1, f4]

theorem charLower_charLower (c : Char) : charLower (charLower c) = charLower c := by
  rcases charLower_eq c with h | ⟨pr, hmem, hc, heq⟩
  · simp [h]
  · obtain ⟨f1, f2, f3, f4, f5, f6, f7, f8⟩ := caseTable_facts pr hmem
    rw [heq, f4]

theorem charUpper_charUpper (c : Char) : charUpper (charUpper c) = charUpper c := by
  rcases charUpper_eq c with h | ⟨pr, hmem, hc, heq⟩
  · simp [h]
  · obtain ⟨f1, f2, f3, f4, f5, f6, f7, f8⟩ := caseTable_facts pr hmem
    rw [heq, f3]

theorem charCased_charUpper (c : Char) : charCased (charUpper c) = charCased c := by
  rcases charUpper_eq c with h | ⟨pr, hmem, hc, heq⟩
  · rw [h]
  · obtain ⟨f1, f2, f3, f4, f5, f6, f7, f8⟩ := caseTable_facts pr hmem
    rw [heq, f5, ← hc, f6]

theorem charCased_charLower (c : Char) : charCased (charLower c) = charCased c := by
  rcases charLower_eq c with h | ⟨pr, hmem, hc, heq⟩
  · rw [h]
  · obtain ⟨f1, f2, f3, f4, f5, f6, f7, f8⟩ := caseTable_facts pr hmem
    rw [heq, f6, ← hc, f5]

theorem pySpace_charUpper (c : Char) : pySpace (charUpper c) = pySpace c := by
  rcases charUpper_eq c with h | ⟨pr, hmem, hc, heq⟩
  · rw [h]
  · obtain ⟨f1, f2, f3, f4, f5, f6, f7, f8⟩ := caseTable_facts pr hmem
    rw [heq, f7, ← hc, f8]

theorem pySpace_charLower (c : Char) : pySpace (charLower c) = pySpace c := by
  rcases charLower_eq c with h | ⟨pr, hmem, hc, heq⟩
  · rw [h]
  · obtain ⟨f1, f2, f3, f4, f5, f6, f7, f8⟩ := caseTable_facts pr hmem
    rw [heq, f8, ← hc, f7]

/-- Title-casing does not change the lowercase image of a string. -/
theorem titleAux_map_charLower (b : Bool) (l : List Char) :
    (titleAux b l).map charLower = l.map charLower := by
  induction l generalizing b with
  | nil => rfl
  | cons c rest ih =>
    simp only [titleAux, List.map_cons, ih]
    by_cases hc : charCased c = true
    · cases b <;> simp [hc, charLower_charLower, charLower_charUpper]
    · simp [hc]

/-- Title-casing does not change the whitespace pattern of a string. -/
theorem titleAux_map_pySpace (b : Bool) (l : List Char) :
    (titleAux b l).map pySpace = l.map pySpace := by
  induction l generalizing b with
  | nil => rfl
  | cons c rest ih =>
    simp only [titleAux, List.map_cons, ih]
    by_cases hc : charCased c = true
    · cases b <;> simp [hc, pySpace_charLower, pySpace_charUpper]
    · simp [hc]

/-- `str.title` is idempotent. -/
theorem titleAux_idem (l : List Char) : ∀ b, titleAux b (titleAux b l) = titleAux b l := by
  induction l with
  | nil => intro b; rfl
  | cons c rest ih =>
    intro b
    by_cases hc : charCased c = true
    · cases b with
      | false =>
        simp only [titleAux, hc, if_true, Bool.false_eq_true, if_false, charCased_charUpper,
          charUpper_charUpper, ih]
      | true =>
        simp only [titleAux, hc, if_true, charCased_charLower, charLower_charLower, ih]
    · have hc2 : charCased c = false := by simpa using hc
      simp only [titleAux, hc2, Bool.false_eq_true, if_false, ih]

/-- A `dropWhile` fixed point has a head rejected by the predicate. -/
theorem head_false_of_dropWhile_eq_self {α : Type} {p : α → Bool} {d : α} {tl : List α}
    (h : List.dropWhile p (d :: tl) = d :: tl) : p d = false := by
  by_contra hcon
  rw [Bool.not_eq_false] at hcon
  rw [List.dropWhile_cons, if_pos hcon] at h
  have hlen := congrArg List.length h
  have hle : (List.dropWhile p tl).length ≤ tl.length :=
    (List.dropWhile_sublist p).length_le
  simp at hlen
  omega

/-- `dropWhile` is idempotent. -/
theorem dropWhile_dropWhile {α : Type} (p : α → Bool) (l : List α) :
    (l.dropWhile p).dropWhile p = l.dropWhile p := by
  induction l with
  | nil => rfl
  | cons c rest ih =>
    by_cases h : p c = true
    · simp [List.dropWhile_cons, h, ih]
    · simp [List.dropWhile_cons, h]

/-- Fixedness under `dropWhile` transfers along predicate-image equality. -/
theorem dropWhile_eq_self_of_map_eq {α : Type} {p : α → Bool} {l₁ l₂ : List α}
    (h : l₁.map p = l₂.map p) (h2 : l₂.dropWhile p = l₂) : l₁.dropWhile p = l₁ := by
  cases l₁ with
  | nil => rfl
  | cons a t1 =>
    cases l₂ with
    | nil => simp at h
    | cons b t2 =>
      simp only [List.map_cons, List.cons.injEq] at h
      have hb := head_false_of_dropWhile_eq_self h2
      rw [List.dropWhile_cons, h.1, hb]
      simp

/-- Stripped strings have no leading whitespace. -/
theorem stripChars_noLead (l : List Char) :
    (stripChars l).dropWhile pySpace = stripChars l := by
  unfold stripChars
  set m := l.dropWhile pySpace with hm
  have hmfix : m.dropWhile pySpace = m := dropWhile_dropWhile pySpace l
  have hsplit : m.reverse.takeWhile pySpace ++ m.reverse.dropWhile pySpace = m.reverse :=
    List.takeWhile_append_dropWhile pySpace m.reverse
  cases hq : (m.reverse.dropWhile pySpace).reverse with
  | nil => simp [hq]
  | cons d q =>
    have hm2 : m = (d :: q) ++ (m.reverse.takeWhile pySpace).reverse := by
      rw [← hq]
      have h := congrArg List.reverse hsplit
      rw [List.reverse_append, List.reverse_reverse] at h
      exact h.symm
    rw [List.cons_append] at hm2
    have hmfix2 : List.dropWhile pySpace
        (d :: (q ++ (m.reverse.takeWhile pySpace).reverse))
        = d :: (q ++ (m.reverse.takeWhile pySpace).reverse) := by
      rw [← hm2]; exact hmfix
    have hd : pySpace d = false := head_false_of_dropWhile_eq_self hmfix2
    rw [List.dropWhile_cons, hd]
    simp

/-- Stripped strings have no trailing whitespace. -/
theorem stripChars_noTrail (l : List Char) :
    (stripChars l).reverse.dropWhile pySpace = (stripChars l).reverse := by
  unfold stripChars
  rw [List.reverse_reverse]
  exact dropWhile_dropWhile pySpace (l.dropWhile pySpace).reverse

/-- Title-casing a stripped string leaves it stripped. -/
theorem stripChars_titleAux (l : List Char) :
    stripChars (titleAux false (stripChars l)) = titleAux false (stripChars l) := by
  have hmap : (titleAux false (stripChars l)).map pySpace = (stripChars l).map pySpace :=
    titleAux_map_pySpace false (stripChars l)
  have h1 : (titleAux false (stripChars l)).dropWhile pySpace = titleAux false (stripChars l) :=
    dropWhile_eq_self_of_map_eq hmap (stripChars_noLead l)
  have hmap2 : (titleAux false (stripChars l)).reverse.map pySpace
      = (stripChars l).reverse.map pySpace := by
    rw [List.map_reverse, List.map_reverse, hmap]
  have h2 : (titleAux false (stripChars l)).reverse.dropWhile pySpace
      = (titleAux false (stripChars l)).reverse :=
    dropWhile_eq_self_of_map_eq hmap2 (stripChars_noTrail l)
  show ((((titleAux false (stripChars l)).dropWhile pySpace).reverse.dropWhile
      pySpace)).reverse = titleAux false (stripChars l)
  rw [h1, h2, List.reverse_reverse]

/-- Canonical names in the variant mapping are fixed by the normalizer. -/
theorem lguMapping_canonical : ∀ pr ∈ lguMapping, normalize_lgu_name pr.2 = pr.2 := by decide

/-- Strings missing from the variant mapping are stripped and title-cased. -/
theorem normalize_unmapped (x : String)
    (h : lguMapping.find? (fun p => p.1 == pyLower (pyStrip x)) = none) :
    normalize_lgu_name x = pyTitle (pyStrip x) := by
  simp only [normalize_lgu_name]
  rw [h]

/-- The normalizer is idempotent. -/
theorem normalize_idem (x : String) :
    normalize_lgu_name (normalize_lgu_name x) = normalize_lgu_name x := by
  cases hf : lguMapping.find? (fun p => p.1 == pyLower (pyStrip x)) with
  | some pr =>
    have hx : normalize_lgu_name x = pr.2 := by
      simp only [normalize_lgu_name]; rw [hf]
    rw [hx]
    exact lguMapping_canonical pr (List.mem_of_find?_eq_some hf)
  | none =>
    have hx : normalize_lgu_name x = pyTitle (pyStrip x) := normalize_unmapped x hf
    have hstrip : pyStrip (pyTitle (pyStrip x)) = pyTitle (pyStrip x) :=
      congrArg String.mk (stripChars_titleAux x.data)
    have hlower : pyLower (pyTitle (pyStrip x)) = pyLower (pyStrip x) :=
      congrArg String.mk (titleAux_map_charLower false (stripChars x.data))
    rw [hx]
    simp only [normalize_lgu_name, hstrip, hlower, hf]
    exact congrArg String.mk (titleAux_idem (stripChars x.data) false)

/-- C8: the name normalizer is idempotent; already-canonical names (including
the canonical targets of the two documented mojibake variants) are returned
unchanged; the mojibake variants map to the accented canonical forms; and a
string not in the variant mapping is returned stripped and title-cased. -/
theorem normalize_lgu_name_contract (x : String) :
    normalize_lgu_name (normalize_lgu_name x) = normalize_lgu_name x ∧
    (∀ name ∈ METRO_MANILA_LGUS, normalize_lgu_name name = name) ∧
    normalize_lgu_name "Las PiÃ±as" = "Las Piñas" ∧
    normalize_lgu_name "ParaÃ±aque" = "Parañaque" ∧
    (lguMapping.find? (fun p => p.1 == pyLower (pyStrip x)) = none →
      normalize_lgu_name x = pyTitle (pyStrip x)) := by
  refine ⟨normalize_idem x, ?_, by decide, by decide, normalize_unmapped x⟩
  intro n hn
  have hall : (METRO_MANILA_LGUS.all fun m => normalize_lgu_name m == m) = true := by decide
  rw [List.all_eq_true] at hall
  have h2 : (normalize_lgu_name n == n) = true := hall n hn
  exact eq_of_beq h2

/-- Witness for C8 at x = "  makati  " (unmapped) and the canonical "Manila". -/
theorem normalize_lgu_name_contract_witness :
    normalize_lgu_name (normalize_lgu_name "  makati  ") = normalize_lgu_name "  makati  " ∧
    normalize_lgu_name "Manila" = "Manila" ∧
    normalize_lgu_name "  makati  " = pyTitle (pyStrip "  makati  ") := by
  obtain ⟨h1, h2, h3, h4, h5⟩ := normalize_lgu_name_contract "  makati  "
  exact ⟨h1, h2 "Manila" (by decide), h5 (by decide)⟩


/-- Helper: days without an archive entry contribute nothing to the rolling
lists. -/
theorem rollingAux_filter (lgu : String) (day : ℤ) (archive : Archive)
    (days : List ℤ) :
    rollingAux lgu day archive days
      = rollingAux lgu day archive
          (days.filter fun i => (List.lookup (lgu, day - i) archive).isSome) := by
  induction days with
  | nil => rfl
  | cons i rest ih =>
    rcases ht : rollingAux lgu day archive rest with ⟨p3, p7, w7⟩
    cases h : List.lookup (lgu, day - i) archive with
    | none =>
      simp only [List.filter_cons, h, Option.isSome_none, Bool.false_eq_true, if_false]
      rw [← ih]
      simp only [rollingAux, h, ht]
    | some r =>
      simp only [List.filter_cons, h, Option.isSome_some, if_true]
      simp only [rollingAux, h, ht, ← ih]

/-- Helper: `List.lookup` misses every key of the empty list. -/
theorem lookup_nil_none (k : String × ℤ) : List.lookup k ([] : Archive) = none := rfl

/-- C6: with no archive entry at date-1 the aggregator returns the documented
typed defaults for the ten t-1 values and does not error; a lookback day with
no archive entry contributes nothing to the rolling lists; and when no day in
the 7-day window has an entry, all three aggregates are 0. -/
theorem historical_lookback_defaults (lgu : String) (day : ℤ) (archive : Archive) :
    (List.lookup (lgu, day - 1) archive = none →
      (calculate_historical_features lgu day archive).hist_precipitation_sum_t1 = some 0 ∧
      (calculate_historical_features lgu day archive).hist_wind_speed_max_t1 = some 0 ∧
      (calculate_historical_features lgu day archive).hist_wind_gusts_max_t1 = some 0 ∧
      (calculate_historical_features lgu day archive).hist_pressure_msl_min_t1 = some 1010 ∧
      (calculate_historical_features lgu day archive).hist_temperature_max_t1 = some 30 ∧
      (calculate_historical_features lgu day archive).hist_relative_humidity_mean_t1 = some 70 ∧
      (calculate_historical_features lgu day archive).hist_cloud_cover_max_t1 = some 50 ∧
      (calculate_historical_features lgu day archive).hist_dew_point_mean_t1 = some 24 ∧
      (calculate_historical_features lgu day archive).hist_apparent_temperature_max_t1
        = some 30 ∧
      (calculate_historical_features lgu day archive).hist_weather_code_t1 = some 0) ∧
    rollingAux lgu day archive lookbackDays
      = rollingAux lgu day archive (availableLookbackDays lgu day archive) ∧
    ((∀ i ∈ lookbackDays, List.lookup (lgu, day - i) archive = none) →
      (calculate_historical_features lgu day archive).hist_precip_sum_3d = 0 ∧
      (calculate_historical_features lgu day archive).hist_precip_sum_7d = 0 ∧
      (calculate_historical_features lgu day archive).hist_wind_max_7d = 0) := by
  refine ⟨fun h => ?_, rollingAux_filter lgu day archive lookbackDays, fun h => ?_⟩
  · rcases hr : rollingAux lgu day archive lookbackDays with ⟨p3, p7, w7⟩
    simp [calculate_historical_features, h, hr]
  · have hempty : (lookbackDays.filter
        fun i => (List.lookup (lgu, day - i) archive).isSome) = [] := by
      rw [List.filter_eq_nil_iff]
      intro i hi
      simp [h i hi]
    have hall : rollingAux lgu day archive lookbackDays = ([], [], []) := by
      rw [rollingAux_filter lgu day archive lookbackDays, hempty]
      rfl
    have h1 : List.lookup (lgu, day - 1) archive = none := h 1 (by decide)
    simp [calculate_historical_features, h1, hall]

/-- Witness for C6 on the empty archive. -/
theorem historical_lookback_defaults_witness :
    (calculate_historical_features "Manila" 100 []).hist_precipitation_sum_t1 = some 0 ∧
    (calculate_historical_features "Manila" 100 []).hist_pressure_msl_min_t1 = some 1010 ∧
    (calculate_historical_features "Manila" 100 []).hist_precip_sum_3d = 0 ∧
    (calculate_historical_features "Manila" 100 []).hist_precip_sum_7d = 0 ∧
    (calculate_historical_features "Manila" 100 []).hist_wind_max_7d = 0 := by
  obtain ⟨h1, h2, h3⟩ := historical_lookback_defaults "Manila" 100 []
  obtain ⟨g1, g2, g3, g4, g5, g6, g7, g8, g9, g10⟩ := h1 rfl
  obtain ⟨a1, a2, a3⟩ := h3 fun i hi => rfl
  exact ⟨g1, g4, a1, a2, a3⟩

/-- Helper: the validation step accepts a 33-feature first vector without a
warning. -/
theorem validation_ok {v : List (String × Option ℚ)} (hlen : v.length = 33) :
    engineer_features_validation [v] = (false, true, 0) := by
  simp [engineer_features_validation, hlen]

/-- C3 (amended): every vector the builder produces has exactly 33 features
in the fixed dict order, so the mismatch branch of the validation is
unreachable on the builder output, and the validation accepts it silently. -/
theorem feature_vector_always_33 (lgu : String) (dt : Datum) (archive : Archive)
    (fr : WeatherRec) (v : List (String × Option ℚ))
    (h : build_feature_vector lgu dt archive fr = some v) :
    v.length = 33 ∧ v.map Prod.fst = featureOrder ∧
    engineer_features_validation [v] = (false, true, 0) := by
  cases hl : List.lookup lgu LGU_ID_MAP with
  | none => rw [build_feature_vector, hl] at h; cases h
  | some lgu_id =>
    rw [build_feature_vector, hl] at h
    obtain rfl : _ = v := Option.some_inj.mp h
    have hlen : (calculate_temporal_features dt ++
        [("lgu_id", some (lgu_id : ℚ)), ("mean_flood_risk_score", some (1/2))] ++
        histFeatureList (calculate_historical_features lgu dt.index archive) ++
        calculate_forecast_features fr).length = 33 := by
      simp [calculate_temporal_features, histFeatureList, calculate_forecast_features]
    refine ⟨hlen, ?_, validation_ok hlen⟩
    simp [calculate_temporal_features, histFeatureList, calculate_forecast_features,
      featureOrder]

/-- Witness for C3 (amended) on the Manila sample vector. -/
theorem feature_vector_always_33_witness :
    sampleVector.length = 33 ∧ sampleVector.map Prod.fst = featureOrder ∧
    engineer_features_validation [sampleVector] = (false, true, 0) :=
  feature_vector_always_33 "Manila" sampleDate [] emptyRec sampleVector (by rfl)

/-- C3 (counterexample): on a feature-count mismatch the run merely prints a
warning; it still writes its output and exits 0, raising no error. -/
theorem validation_warns_but_exits_zero :
    engineer_features_validation [[("year", some 2025)]] = (true, true, 0) ∧
    ([("year", (some 2025 : Option ℚ))] : List (String × Option ℚ)).length ≠ 33 :=
  ⟨rfl, by decide⟩

/-- Helper: `pyGet` yields a number whenever the field is not a present null. -/
theorem pyGet_isSome {f : Option (Option ℚ)} (d : ℚ) (h : f ≠ some none) :
    (pyGet f d).isSome = true := by
  cases f with
  | none => simp [pyGet]
  | some v =>
    cases v with
    | none => exact absurd rfl h
    | some q => simp [pyGet]

/-- Helper: under null-free t-1 data, every historical feature is a number. -/
theorem hist_features_isSome (lgu : String) (day : ℤ) (archive : Archive)
    (hclean : ∀ r, List.lookup (lgu, day - 1) archive = some r → t1FieldsNonNull r) :
    ∀ pair ∈ histFeatureList (calculate_historical_features lgu day archive),
      pair.2.isSome = true := by
  rcases hr : rollingAux lgu day archive lookbackDays with ⟨p3, p7, w7⟩
  intro pair hmem
  cases ht : List.lookup (lgu, day - 1) archive with
  | none =>
    simp [calculate_historical_features, ht, hr, histFeatureList] at hmem
    rcases hmem with h | h | h | h | h | h | h | h | h | h | h | h | h <;> simp [h]
  | some r =>
    obtain ⟨n1, n2, n3, n4, n5, n6, n7, n8, n9, n10⟩ := hclean r ht
    simp [calculate_historical_features, ht, hr, histFeatureList] at hmem
    rcases hmem with h | h | h | h | h | h | h | h | h | h | h | h | h <;>
      simp only [h] <;>
      first
        | simp
        | exact pyGet_isSome 0 n1
        | exact pyGet_isSome 0 n2
        | exact pyGet_isSome 0 n3
        | exact pyGet_isSome 1010 n4
        | exact pyGet_isSome 30 n5
        | exact pyGet_isSome 70 n6
        | exact pyGet_isSome 50 n7
        | exact pyGet_isSome 24 n8
        | exact pyGet_isSome 30 n9
        | exact pyGet_isSome 0 n10

/-- C5 (amended): missing (absent-key) upstream values are replaced by typed
defaults in both paths, and provided the t-1 archive entry (if any) carries
no present-but-null value in its ten consumed fields, every numeric field of
the built feature vector is a number. -/
theorem feature_vector_no_null (lgu : String) (dt : Datum) (archive : Archive)
    (fr : WeatherRec) (v : List (String × Option ℚ))
    (h : build_feature_vector lgu dt archive fr = some v)
    (hclean : ∀ r, List.lookup (lgu, dt.index - 1) archive = some r → t1FieldsNonNull r) :
    ∀ pair ∈ v, pair.2.isSome = true := by
  cases hl : List.lookup lgu LGU_ID_MAP with
  | none => rw [build_feature_vector, hl] at h; cases h
  | some lgu_id =>
    rw [build_feature_vector, hl] at h
    obtain rfl : _ = v := Option.some_inj.mp h
    intro pair hmem
    rw [List.mem_append, List.mem_append, List.mem_append] at hmem
    rcases hmem with ((htemp | hmid) | hhist) | hfcst
    · simp [calculate_temporal_features] at htemp
      rcases htemp with h | h | h | h | h | h | h | h <;> simp [h]
    · simp at hmid
      rcases hmid with h | h <;> simp [h]
    · exact hist_features_isSome lgu dt.index archive hclean pair hhist
    · simp [calculate_forecast_features] at hfcst
      rcases hfcst with h | h | h | h | h | h | h | h | h | h <;> simp [h]

/-- Witness for C5 (amended): the year entry of the Manila sample vector
(empty archive) is a number. -/
theorem feature_vector_no_null_witness :
    ("year", (some (2025 : ℚ))) ∈ sampleVector ∧
    (("year", (some (2025 : ℚ))) : String × Option ℚ).2.isSome = true :=
  ⟨by decide,
   feature_vector_no_null "Manila" sampleDate [] emptyRec sampleVector (by rfl)
    (fun r hr => by cases hr) ("year", some (2025 : ℚ)) (by decide)⟩

/-- C5 (counterexample): a present-but-null precipitation value in the t-1
archive entry flows into the built feature vector as a null feature. -/
theorem t1_null_passes_through :
    ("hist_precipitation_sum_t1", (none : Option ℚ)) ∈ nullArchiveVector := by decide

end MayPasokBa
